import Mathlib

/-!
Shallow embedding of `src/GHClient.ts` (kozr/github-database): a key/value
storage adapter over a remote repository-contents API.  The four public
operations `putObject`, `removeObject`, `getObject`, `listObjects` are
embedded as pure functions over an oracle (`Remote`) that supplies the
remote service's response to each network call, and each operation returns
its settled outcome together with the exact list of remote calls it issued.
The two retry loops are embedded with an explicit fuel parameter: a result
of `none` means the loop is still running after `fuel` iterations, so
`∀ fuel, run fuel = none` expresses non-termination.

Helper functions (`validStorageKey`, the base64 converters) and the error
message constants live in `src/helpers` and `src/constants`, which are not
part of the provided sources; they are modelled from the spec, as noted on
each definition.
-/

/-- JavaScript truthiness of a possibly-undefined string: `undefined` and
the empty string are falsy, every other string is truthy. -/
def strTruthy : Option String → Bool
  | none => false
  | some s => s != ""

/-- Whether the character list contains two consecutive dots (a path
traversal sequence). -/
def hasDotDot : List Char → Bool
  | c1 :: c2 :: rest => (c1 == '.' && c2 == '.') || hasDotDot (c2 :: rest)
  | _ => false

/-- Modelled from the spec: `validStorageKey` is imported from
`src/helpers/GHClientHelpers`, which is not under the provided sources.
The spec says a storage key "must pass a validity predicate (non-empty, no
disallowed characters/traversal sequences) before use". -/
def validStorageKey (key : String) : Bool :=
  key != "" && !hasDotDot key.data

/-- The standard base64 alphabet: sextet value to output character. -/
def encB64 (n : Nat) : Char :=
  if n < 26 then Char.ofNat (65 + n)
  else if n < 52 then Char.ofNat (97 + (n - 26))
  else if n < 62 then Char.ofNat (48 + (n - 52))
  else if n = 62 then '+' else '/'

/-- Inverse of the base64 alphabet: output character back to sextet value. -/
def decB64 (c : Char) : Nat :=
  let n := c.toNat
  if 65 ≤ n && n ≤ 90 then n - 65
  else if 97 ≤ n && n ≤ 122 then n - 97 + 26
  else if 48 ≤ n && n ≤ 57 then n - 48 + 52
  else if n == 43 then 62 else 63

/-- Serialize one character as four base64 characters covering its 24-bit
big-endian code point (code points are below 2^21, so they fit). -/
def encodeChar (c : Char) : List Char :=
  let n := c.toNat
  [encB64 (n / 262144), encB64 (n / 4096 % 64), encB64 (n / 64 % 64), encB64 (n % 64)]

/-- Base64-encode a character list, four output characters per input
character. -/
def encodeCharList : List Char → List Char
  | [] => []
  | c :: l => encodeChar c ++ encodeCharList l

/-- Decode a base64 character list four characters at a time, reassembling
each 24-bit code point. -/
def decodeB64Chars : List Char → List Char
  | a :: b :: c :: d :: rest =>
      Char.ofNat (decB64 a * 262144 + decB64 b * 4096 + decB64 c * 64 + decB64 d)
        :: decodeB64Chars rest
  | _ => []

/-- Modelled from the spec: `convertStringToBase64` lives in
`src/helpers/GHClientHelpers`, not under the provided sources.  The spec
treats it as the standard pure base64 transport encoding applied on every
write. -/
def convertStringToBase64 (s : String) : String :=
  String.mk (encodeCharList s.data)

/-- Modelled from the spec: `convertBase64ToString` lives in
`src/helpers/GHClientHelpers`, not under the provided sources.  The spec
treats it as the base64 decoding applied on every read, inverse to
`convertStringToBase64`. -/
def convertBase64ToString (s : String) : String :=
  String.mk (decodeB64Chars s.data)

/-- An error thrown by the remote client: either a recognizable GitHub API
error carrying an HTTP status and a message (`isGithubApiError` returns
true on it), or an unrecognized error of some other shape. -/
inductive RemoteError where
  | api (status : Nat) (message : String)
  | unrecognized
deriving Repr, DecidableEq

/-- The fields the adapter destructures from a non-array contents-API
response: the content digest `sha` and the base64 `content`, each possibly
absent. -/
structure EntryData where
  sha : Option String
  content : Option String
deriving Repr, DecidableEq

/-- The `data` field of a successful GET response: a single entry object,
or an array of entries when the path is a folder (`Array.isArray(data)`). -/
inductive GetData where
  | entry (d : EntryData)
  | arr (entries : List EntryData)
deriving Repr, DecidableEq

/-- Destructuring `const { sha } = data`: an array has no `sha` property. -/
def shaOf : GetData → Option String
  | .entry e => e.sha
  | .arr _ => none

/-- Destructuring `const { content } = data`: an array has no `content`
property. -/
def contentOf : GetData → Option String
  | .entry e => e.content
  | .arr _ => none

/-- A value the adapter rejects a promise with.  The named message
constants live in `src/constants/ErrorMessages` (not under the provided
sources) and are modelled as distinct tokens; `verbatim` carries the
remote error's own message (surfaced by `removeObject` for unhandled
statuses) and `raw` carries a remote error propagated unmodified (as
`listObjects` does, having no error handling at all). -/
inductive Rejection where
  | invalidKeyMessage
  | internalErrorMessage
  | badCredentialsMessage
  | githubApiErrorMessage
  | objectNotFoundMessage
  | cannotReplaceFolder
  | keyPointsToFolder
  | notAFolder
  | verbatim (message : String)
  | raw (e : RemoteError)
deriving Repr, DecidableEq

/-- One remote call issued by the adapter, with the request parameters
that the corresponding `octokit.request` receives: the GET of
`getObjectOctokit`, the DELETE of `deleteObjectOctokit` (with the sha the
adapter passes, possibly undefined), the PUT of `replaceObjectOctokit`
(with the wire content, already base64, and the sha) and the PUT of
`uploadNewObjectOctokit` (wire content, no sha). -/
inductive Call where
  | fetch (key : String)
  | del (key : String) (sha : Option String)
  | putReplace (key : String) (content : String) (sha : String)
  | putCreate (key : String) (content : String)
deriving Repr, DecidableEq

/-- The remote service as an oracle: the outcome of the n-th fetch, the
n-th delete and the n-th write (PUT) issued by one operation.  A write's
outcome is a bare success flag because `replaceObjectOctokit` and
`uploadNewObjectOctokit` catch every error and reduce it to a boolean. -/
structure Remote where
  fetchR : Nat → Except RemoteError GetData
  deleteR : Nat → Except RemoteError Unit
  writeR : Nat → Bool

/-- `MAX_API_ATTEMPTS` of `GHClient`. -/
def MAX_API_ATTEMPTS : Nat := 10

/-- The `while (!success && remainingAttempts > 0)` loop of `putObject`
(lines 53–75).  The loop state is `(success, remainingAttempts)` exactly as
in the source — in particular `remainingAttempts` is never decremented, as
in the source.  `fuel` bounds how many iterations the embedding unfolds:
`none` means the loop is still running after `fuel` iterations. -/
def putLoop (rem : Remote) (key value : String) (fuel : Nat) (success : Bool)
    (remaining nFetch nWrite : Nat) (log : List Call) :
    Option (Except Rejection Unit × List Call) :=
  if success || remaining == 0 then
    some (if success then .ok () else .error .githubApiErrorMessage, log)
  else
    match fuel with
    | 0 => none
    | fuel' + 1 =>
      let log := log ++ [Call.fetch key]
      match rem.fetchR nFetch with
      | .ok d =>
        if strTruthy (shaOf d) then
          let log := log ++ [Call.putReplace key (convertStringToBase64 value) ((shaOf d).getD "")]
          let _ := rem.writeR nWrite
          putLoop rem key value fuel' true remaining (nFetch + 1) (nWrite + 1) log
        else
          match d with
          | .arr _ => some (.error .cannotReplaceFolder, log)
          | .entry _ => putLoop rem key value fuel' true remaining (nFetch + 1) nWrite log
      | .error .unrecognized => some (.error .internalErrorMessage, log)
      | .error (.api status _) =>
        if status = 404 then
          let log := log ++ [Call.putCreate key (convertStringToBase64 value)]
          let _ := rem.writeR nWrite
          putLoop rem key value fuel' true remaining (nFetch + 1) (nWrite + 1) log
        else if status = 401 then
          some (.error .badCredentialsMessage, log)
        else
          putLoop rem key value fuel' false remaining (nFetch + 1) nWrite log

/-- `putObject` (lines 48–77): reject invalid keys before any network
call, then run the retry loop; after the loop, reject with the generic
GitHub API error when `success` is still false, otherwise resolve. -/
def putObject (rem : Remote) (key value : String) (fuel : Nat) :
    Option (Except Rejection Unit × List Call) :=
  if validStorageKey key then
    putLoop rem key value fuel false MAX_API_ATTEMPTS 0 0 []
  else
    some (.error .invalidKeyMessage, [])

/-- The `while (!success && remainingAttempts > 0)` loop of `removeObject`
(lines 84–99) together with line 100: when the loop exits — `success`
having been set on a 404, or attempts exhausted — the source
unconditionally rejects with the generic GitHub API error
(`return Promise.reject(GITHUB_API_ERROR_MESSAGE)` is reached on every
loop exit).  As in the source, `remaining` is never decremented. -/
def removeLoop (rem : Remote) (key : String) (fuel : Nat) (success : Bool)
    (remaining nFetch nDel : Nat) (log : List Call) :
    Option (Except Rejection (Option String) × List Call) :=
  if success || remaining == 0 then
    some (.error .githubApiErrorMessage, log)
  else
    match fuel with
    | 0 => none
    | fuel' + 1 =>
      let log := log ++ [Call.fetch key]
      match rem.fetchR nFetch with
      | .ok d =>
        let log := log ++ [Call.del key (shaOf d)]
        match rem.deleteR nDel with
        | .ok _ => some (.ok (contentOf d), log)
        | .error .unrecognized => some (.error .internalErrorMessage, log)
        | .error (.api status message) =>
          if status = 404 then
            removeLoop rem key fuel' true remaining (nFetch + 1) (nDel + 1) log
          else if status = 401 then
            some (.error .badCredentialsMessage, log)
          else
            some (.error (.verbatim message), log)
      | .error .unrecognized => some (.error .internalErrorMessage, log)
      | .error (.api status message) =>
        if status = 404 then
          removeLoop rem key fuel' true remaining (nFetch + 1) nDel log
        else if status = 401 then
          some (.error .badCredentialsMessage, log)
        else
          some (.error (.verbatim message), log)

/-- `removeObject` (lines 79–101): reject invalid keys before any network
call, then run the retry loop. -/
def removeObject (rem : Remote) (key : String) (fuel : Nat) :
    Option (Except Rejection (Option String) × List Call) :=
  if validStorageKey key then
    removeLoop rem key fuel false MAX_API_ATTEMPTS 0 0 []
  else
    some (.error .invalidKeyMessage, [])

/-- `getObject` (lines 105–124): single fetch, no loop.  A folder rejects
with the folder message; present non-empty content (JavaScript truthiness
of `if (content)`) resolves to the decoded string; everything else falls
through to the generic GitHub API error at line 123, except 404 / 401 /
unrecognized errors which are classified in the catch block. -/
def getObject (rem : Remote) (key : String) :
    Except Rejection String × List Call :=
  if validStorageKey key then
    let log := [Call.fetch key]
    match rem.fetchR 0 with
    | .ok (.arr _) => (.error .keyPointsToFolder, log)
    | .ok (.entry e) =>
      if strTruthy e.content then
        (.ok (convertBase64ToString (e.content.getD "")), log)
      else
        (.error .githubApiErrorMessage, log)
    | .error .unrecognized => (.error .internalErrorMessage, log)
    | .error (.api status _) =>
      if status = 404 then (.error .objectNotFoundMessage, log)
      else if status = 401 then (.error .badCredentialsMessage, log)
      else (.error .githubApiErrorMessage, log)
  else
    (.error .invalidKeyMessage, [])

/-- `listObjects` (lines 126–130): no key validation and no try/catch —
the fetch is issued for every key, a rejection of the underlying request
propagates to the caller unmodified, an entry rejects with the not-a-folder
message and an array resolves to its entries. -/
def listObjects (rem : Remote) (key : String) :
    Except Rejection (List EntryData) × List Call :=
  let log := [Call.fetch key]
  match rem.fetchR 0 with
  | .error e => (.error (.raw e), log)
  | .ok (.arr es) => (.ok es, log)
  | .ok (.entry _) => (.error .notAFolder, log)

/-- What the remote repository stores at a path: a file with its wire
(base64) content, or a folder with its entries. -/
inductive Stored where
  | fileS (content : String)
  | folderS (entries : List EntryData)

/-- Modelled from the spec: the remote repository-contents service is an
external collaborator (spec section 6); its observable state is a map from
paths to stored entries. -/
def Server : Type := String → Option Stored

/-- Modelled from the spec: the contents GET endpoint — a stored file
answers with its digest and content, a folder answers with its entry
array, an absent path fails with a 404 API error. -/
def serverFetch (s : Server) (key : String) : Except RemoteError GetData :=
  match s key with
  | some (.fileS c) => .ok (.entry ⟨some "digest", some c⟩)
  | some (.folderS es) => .ok (.arr es)
  | none => .error (.api 404 "Not Found")

/-- Modelled from the spec: the effect of one adapter-issued call on the
remote state — a PUT stores the wire content at the path, a DELETE removes
the path, a GET changes nothing. -/
def applyCall (s : Server) : Call → Server
  | .putCreate key content => fun k => if k = key then some (.fileS content) else s k
  | .putReplace key content _ => fun k => if k = key then some (.fileS content) else s k
  | .del key _ => fun k => if k = key then none else s k
  | .fetch _ => s

/-- Apply a list of calls to the remote state in order. -/
def applyCalls (s : Server) (calls : List Call) : Server :=
  calls.foldl applyCall s

/-- The oracle presented by an honest remote in state `s` to an operation
on `key`: every fetch answers from `s`, deletes and writes succeed. -/
def remoteOfServer (s : Server) (key : String) : Remote :=
  { fetchR := fun _ => serverFetch s key
    deleteR := fun _ => .ok ()
    writeR := fun _ => true }

theorem decB64_encB64 {n : Nat} (h : n < 64) : decB64 (encB64 n) = n := by
  have key : ∀ m : Fin 64, decB64 (encB64 m.val) = m.val := by decide
  exact key ⟨n, h⟩

theorem char_toNat_lt (c : Char) : c.toNat < 1114112 := by
  have h := c.valid
  rcases h with h | h
  · simp [Char.toNat]; omega
  · simp [Char.toNat]; omega

theorem decodeB64Chars_encodeChar (c : Char) (rest : List Char) :
    decodeB64Chars (encodeChar c ++ rest) = c :: decodeB64Chars rest := by
  have hlt := char_toNat_lt c
  have h1 : c.toNat / 262144 < 64 := by omega
  have h2 : c.toNat / 4096 % 64 < 64 := by omega
  have h3 : c.toNat / 64 % 64 < 64 := by omega
  have h4 : c.toNat % 64 < 64 := by omega
  simp [encodeChar, decodeB64Chars, decB64_encB64 h1, decB64_encB64 h2,
    decB64_encB64 h3, decB64_encB64 h4]
  have h5 : c.toNat / 262144 * 262144 + c.toNat / 4096 % 64 * 4096 +
      c.toNat / 64 % 64 * 64 + c.toNat % 64 = c.toNat := by omega
  rw [h5, Char.ofNat_toNat]

theorem decodeB64Chars_encodeCharList (l : List Char) :
    decodeB64Chars (encodeCharList l) = l := by
  induction l with
  | nil => rfl
  | cons c l ih => rw [encodeCharList, decodeB64Chars_encodeChar, ih]

/-- The transport decoding inverts the transport encoding. -/
theorem convertBase64ToString_convertStringToBase64 (s : String) :
    convertBase64ToString (convertStringToBase64 s) = s := by
  cases s with
  | mk l =>
    simp [convertStringToBase64, convertBase64ToString, decodeB64Chars_encodeCharList]

/-- Encoding a non-empty string yields a non-empty (truthy) string. -/
theorem convertStringToBase64_ne_empty {v : String} (h : v ≠ "") :
    convertStringToBase64 v ≠ "" := by
  cases v with
  | mk l =>
    cases l with
    | nil => exact absurd rfl h
    | cons c l =>
      intro heq
      rw [convertStringToBase64, encodeCharList, encodeChar] at heq
      exact List.cons_ne_nil _ _ (congrArg String.data heq)

/-- C1 (code evaluated at the failing input): when the fetch fails with a
404 the source sets `success = true`, but line 100 rejects with the generic
GitHub API error on every loop exit, so `removeObject` on a non-existent
key rejects instead of resolving with no value as the claim states. -/
theorem removeObject_notFound_rejects_api_error
    (f : Nat → Except RemoteError GetData) (d : Nat → Except RemoteError Unit)
    (w : Nat → Bool) (key m : String)
    (hk : validStorageKey key = true)
    (h : f 0 = .error (.api 404 m)) :
    removeObject ⟨f, d, w⟩ key 2
      = some (.error .githubApiErrorMessage, [.fetch key]) := by
  simp [removeObject, hk, removeLoop, h, MAX_API_ATTEMPTS]

theorem removeObject_notFound_rejects_api_error_witness :
    validStorageKey "notes/a.txt" = true ∧
    removeObject ⟨fun _ => .error (.api 404 "Not Found"), fun _ => .ok (), fun _ => true⟩
      "notes/a.txt" 2
      = some (.error .githubApiErrorMessage, [.fetch "notes/a.txt"]) :=
  ⟨by decide,
   removeObject_notFound_rejects_api_error _ _ _ "notes/a.txt" "Not Found" (by decide) rfl⟩

theorem putLoop_persistent_error_runs_forever
    (d : Nat → Except RemoteError Unit) (w : Nat → Bool)
    (key value m : String) (status : Nat)
    (h404 : status ≠ 404) (h401 : status ≠ 401) :
    ∀ fuel nFetch nWrite log,
      putLoop ⟨fun _ => .error (.api status m), d, w⟩ key value fuel false
        MAX_API_ATTEMPTS nFetch nWrite log = none := by
  intro fuel
  induction fuel with
  | zero =>
    intro nFetch nWrite log
    simp [putLoop, MAX_API_ATTEMPTS]
  | succ fuel ih =>
    intro nFetch nWrite log
    rw [putLoop]
    simp only [MAX_API_ATTEMPTS]
    simp [h404, h401]
    exact ih (nFetch + 1) nWrite (log ++ [Call.fetch key])

/-- C2 (code evaluated at the failing input): `remainingAttempts` is never
decremented, so against a remote that persistently fails with any API
status other than 404 and 401, the `putObject` loop never terminates —
for every iteration bound `fuel` the run is still unfinished (`none`),
contradicting the claimed 10-attempt bound and the claimed generic
API-error rejection once the bound is exceeded. -/
theorem putObject_persistent_error_never_terminates
    (d : Nat → Except RemoteError Unit) (w : Nat → Bool)
    (key value m : String) (status : Nat)
    (hk : validStorageKey key = true)
    (h404 : status ≠ 404) (h401 : status ≠ 401) :
    ∀ fuel, putObject ⟨fun _ => .error (.api status m), d, w⟩ key value fuel = none := by
  intro fuel
  simp only [putObject, hk, if_true]
  exact putLoop_persistent_error_runs_forever d w key value m status h404 h401 fuel 0 0 []

theorem putObject_persistent_error_never_terminates_witness :
    validStorageKey "k" = true ∧ (500 : Nat) ≠ 404 ∧ (500 : Nat) ≠ 401 ∧
    putObject ⟨fun _ => .error (.api 500 "boom"), fun _ => .ok (), fun _ => true⟩
      "k" "v" 25 = none :=
  ⟨by decide, by decide, by decide,
   putObject_persistent_error_never_terminates _ _ "k" "v" "boom" 500
     (by decide) (by decide) (by decide) 25⟩

/-- C3 counterexample: `listObjects` has no error handling, so a 401 from
the remote client is not mapped to the fixed bad-credentials message — it
propagates raw, refuting the claim for the `listObjects` operation. -/
theorem listObjects_401_counterexample :
    listObjects ⟨fun _ => .error (.api 401 "Bad credentials"), fun _ => .ok (), fun _ => true⟩
      "k"
      = (.error (.raw (.api 401 "Bad credentials")), [.fetch "k"]) ∧
    Rejection.raw (.api 401 "Bad credentials") ≠ Rejection.badCredentialsMessage :=
  ⟨rfl, by decide⟩

/-- C3 as amended: when the remote client fails with status 401 on the
first request, `putObject`, `removeObject` and `getObject` reject
immediately with the fixed bad-credentials message after exactly one
remote call; `listObjects` also makes exactly one remote call but rejects
with the raw remote error instead of the fixed message. -/
theorem status_401_handling
    (f : Nat → Except RemoteError GetData) (d : Nat → Except RemoteError Unit)
    (w : Nat → Bool) (key value m : String)
    (hk : validStorageKey key = true)
    (h : f 0 = .error (.api 401 m)) :
    putObject ⟨f, d, w⟩ key value 1 = some (.error .badCredentialsMessage, [.fetch key]) ∧
    removeObject ⟨f, d, w⟩ key 1 = some (.error .badCredentialsMessage, [.fetch key]) ∧
    getObject ⟨f, d, w⟩ key = (.error .badCredentialsMessage, [.fetch key]) ∧
    listObjects ⟨f, d, w⟩ key = (.error (.raw (.api 401 m)), [.fetch key]) := by
  refine ⟨?_, ?_, ?_, ?_⟩ <;>
    simp [putObject, removeObject, getObject, listObjects, hk, putLoop, removeLoop, h,
      MAX_API_ATTEMPTS]

theorem status_401_handling_witness :
    validStorageKey "k" = true ∧
    (putObject ⟨fun _ => .error (.api 401 "Bad credentials"), fun _ => .ok (), fun _ => true⟩
        "k" "v" 1 = some (.error .badCredentialsMessage, [.fetch "k"]) ∧
      removeObject ⟨fun _ => .error (.api 401 "Bad credentials"), fun _ => .ok (), fun _ => true⟩
        "k" 1 = some (.error .badCredentialsMessage, [.fetch "k"]) ∧
      getObject ⟨fun _ => .error (.api 401 "Bad credentials"), fun _ => .ok (), fun _ => true⟩
        "k" = (.error .badCredentialsMessage, [.fetch "k"]) ∧
      listObjects ⟨fun _ => .error (.api 401 "Bad credentials"), fun _ => .ok (), fun _ => true⟩
        "k" = (.error (.raw (.api 401 "Bad credentials")), [.fetch "k"])) :=
  ⟨by decide, status_401_handling _ _ _ "k" "v" "Bad credentials" (by decide) rfl⟩

/-- C4: for every key failing the validity predicate, `putObject`,
`getObject` and `removeObject` reject with the invalid-key message and
issue no remote call (the call log is empty). -/
theorem invalid_key_rejects_without_network (rem : Remote) (key value : String)
    (fuel : Nat) (hk : validStorageKey key = false) :
    putObject rem key value fuel = some (.error .invalidKeyMessage, []) ∧
    getObject rem key = (.error .invalidKeyMessage, []) ∧
    removeObject rem key fuel = some (.error .invalidKeyMessage, []) := by
  refine ⟨?_, ?_, ?_⟩ <;> simp [putObject, getObject, removeObject, hk]

theorem invalid_key_rejects_without_network_witness :
    validStorageKey "a..b" = false ∧
    (putObject ⟨fun _ => .error .unrecognized, fun _ => .ok (), fun _ => true⟩ "a..b" "v" 3
        = some (.error .invalidKeyMessage, []) ∧
      getObject ⟨fun _ => .error .unrecognized, fun _ => .ok (), fun _ => true⟩ "a..b"
        = (.error .invalidKeyMessage, []) ∧
      removeObject ⟨fun _ => .error .unrecognized, fun _ => .ok (), fun _ => true⟩ "a..b" 3
        = some (.error .invalidKeyMessage, [])) :=
  ⟨by decide, invalid_key_rejects_without_network _ "a..b" "v" 3 (by decide)⟩

/-- C5 counterexample: at the empty value the round-trip fails — against
an honest remote with the key absent, `putObject` resolves and stores the
(empty) encoding, but the subsequent `getObject` rejects with the generic
GitHub API error instead of returning `""`, because `if (content)` treats
the empty string as absent. -/
theorem put_get_empty_value_counterexample :
    putObject (remoteOfServer (fun _ => none) "k") "k" "" 2
      = some (.ok (), [.fetch "k", .putCreate "k" ""]) ∧
    getObject
      (remoteOfServer (applyCalls (fun _ => none) [Call.fetch "k", Call.putCreate "k" ""]) "k")
      "k"
      = (.error .githubApiErrorMessage, [.fetch "k"]) ∧
    (Except.error Rejection.githubApiErrorMessage : Except Rejection String) ≠ .ok "" :=
  ⟨rfl, rfl, by simp⟩

/-- C5 as amended: for every valid key absent from the remote state and
every non-empty value, `putObject` resolves after storing the
transport-encoded value, and a subsequent `getObject` against the updated
remote state returns the original value (the base64 decoding on read
inverts the encoding on write). -/
theorem putObject_then_getObject_roundtrip (s : Server) (key value : String)
    (hk : validStorageKey key = true) (hv : value ≠ "") (hs : s key = none) :
    putObject (remoteOfServer s key) key value 2
      = some (.ok (), [.fetch key, .putCreate key (convertStringToBase64 value)]) ∧
    getObject
      (remoteOfServer
        (applyCalls s [Call.fetch key, Call.putCreate key (convertStringToBase64 value)]) key)
      key
      = (.ok value, [.fetch key]) := by
  constructor
  · simp [putObject, hk, putLoop, remoteOfServer, serverFetch, hs, MAX_API_ATTEMPTS]
  · have hupd : applyCalls s [Call.fetch key, Call.putCreate key (convertStringToBase64 value)] key
        = some (.fileS (convertStringToBase64 value)) := by
      simp [applyCalls, applyCall]
    simp [getObject, hk, remoteOfServer, serverFetch, hupd, strTruthy,
      bne_iff_ne, convertStringToBase64_ne_empty hv,
      convertBase64ToString_convertStringToBase64]

theorem putObject_then_getObject_roundtrip_witness :
    validStorageKey "k" = true ∧ ("hi" : String) ≠ "" ∧
    (putObject (remoteOfServer (fun _ => none) "k") "k" "hi" 2
        = some (.ok (), [.fetch "k", .putCreate "k" (convertStringToBase64 "hi")]) ∧
      getObject
        (remoteOfServer
          (applyCalls (fun _ => none)
            [Call.fetch "k", Call.putCreate "k" (convertStringToBase64 "hi")]) "k")
        "k"
        = (.ok "hi", [.fetch "k"])) :=
  ⟨by decide, by decide,
   putObject_then_getObject_roundtrip (fun _ => none) "k" "hi" (by decide) (by decide) rfl⟩

/-- C6: when the fetch answers with a folder (an array, hence no digest),
`putObject` rejects with the folder-conflict message and the call log
contains only the fetch — no write request is issued. -/
theorem putObject_folder_conflict_no_write
    (f : Nat → Except RemoteError GetData) (d : Nat → Except RemoteError Unit)
    (w : Nat → Bool) (key value : String) (es : List EntryData)
    (hk : validStorageKey key = true) (h : f 0 = .ok (.arr es)) :
    putObject ⟨f, d, w⟩ key value 1
      = some (.error .cannotReplaceFolder, [.fetch key]) := by
  simp [putObject, hk, putLoop, h, strTruthy, shaOf, MAX_API_ATTEMPTS]

theorem putObject_folder_conflict_no_write_witness :
    validStorageKey "dir" = true ∧
    putObject ⟨fun _ => .ok (.arr []), fun _ => .ok (), fun _ => true⟩ "dir" "v" 1
      = some (.error .cannotReplaceFolder, [.fetch "dir"]) :=
  ⟨by decide, putObject_folder_conflict_no_write _ _ _ "dir" "v" [] (by decide) rfl⟩

/-- C7: when the fetch answers with an existing file, `removeObject`
issues the delete with the fetched digest and resolves with the stored
content exactly as fetched — still in its transport-encoded form. -/
theorem removeObject_existing_file_returns_encoded
    (f : Nat → Except RemoteError GetData) (d : Nat → Except RemoteError Unit)
    (w : Nat → Bool) (key sha c : String)
    (hk : validStorageKey key = true)
    (hf : f 0 = .ok (.entry ⟨some sha, some c⟩))
    (hd : d 0 = .ok ()) :
    removeObject ⟨f, d, w⟩ key 1
      = some (.ok (some c), [.fetch key, .del key (some sha)]) := by
  simp [removeObject, hk, removeLoop, hf, hd, shaOf, contentOf, MAX_API_ATTEMPTS]

theorem removeObject_existing_file_returns_encoded_witness :
    validStorageKey "k" = true ∧
    removeObject
      ⟨fun _ => .ok (.entry ⟨some "abc123", some "aGVsbG8="⟩), fun _ => .ok (), fun _ => true⟩
      "k" 1
      = some (.ok (some "aGVsbG8="), [.fetch "k", .del "k" (some "abc123")]) :=
  ⟨by decide,
   removeObject_existing_file_returns_encoded _ _ _ "k" "abc123" "aGVsbG8=" (by decide) rfl rfl⟩

/-- C8: `putObject` resolves successfully even when every underlying
remote write fails (`writeR` constantly false): `replaceObjectOctokit` and
`uploadNewObjectOctokit` catch every error and reduce it to a boolean that
`putObject` never inspects, on both the create (404) path and the replace
(existing file) path. -/
theorem putObject_resolves_despite_failed_writes
    (f g : Nat → Except RemoteError GetData) (d : Nat → Except RemoteError Unit)
    (key value m sha c : String)
    (hk : validStorageKey key = true)
    (hf : f 0 = .error (.api 404 m))
    (hg : g 0 = .ok (.entry ⟨some sha, some c⟩))
    (hsha : sha ≠ "") :
    putObject ⟨f, d, fun _ => false⟩ key value 2
      = some (.ok (), [.fetch key, .putCreate key (convertStringToBase64 value)]) ∧
    putObject ⟨g, d, fun _ => false⟩ key value 2
      = some (.ok (), [.fetch key, .putReplace key (convertStringToBase64 value) sha]) := by
  constructor
  · simp [putObject, hk, putLoop, hf, MAX_API_ATTEMPTS]
  · simp [putObject, hk, putLoop, hg, strTruthy, shaOf, MAX_API_ATTEMPTS, bne_iff_ne, hsha]

theorem putObject_resolves_despite_failed_writes_witness :
    validStorageKey "k" = true ∧ ("abc" : String) ≠ "" ∧
    (putObject ⟨fun _ => .error (.api 404 "Not Found"), fun _ => .ok (), fun _ => false⟩
        "k" "v" 2
        = some (.ok (), [.fetch "k", .putCreate "k" (convertStringToBase64 "v")]) ∧
      putObject ⟨fun _ => .ok (.entry ⟨some "abc", some "Zm9v"⟩), fun _ => .ok (), fun _ => false⟩
        "k" "v" 2
        = some (.ok (), [.fetch "k", .putReplace "k" (convertStringToBase64 "v") "abc"])) :=
  ⟨by decide, by decide,
   putObject_resolves_despite_failed_writes _ _ _ "k" "v" "Not Found" "abc" "Zm9v"
     (by decide) rfl rfl (by decide)⟩

/-- C9: `listObjects` validates nothing and classifies nothing — for every
key (no validity hypothesis) it issues exactly one fetch, and any error
from the remote client, of any shape or status, propagates to the caller
unmodified as a raw error. -/
theorem listObjects_no_validation_propagates_raw
    (f : Nat → Except RemoteError GetData) (d : Nat → Except RemoteError Unit)
    (w : Nat → Bool) (key : String) (e : RemoteError)
    (h : f 0 = .error e) :
    listObjects ⟨f, d, w⟩ key = (.error (.raw e), [.fetch key]) := by
  simp [listObjects, h]

theorem listObjects_no_validation_propagates_raw_witness :
    validStorageKey "" = false ∧
    listObjects ⟨fun _ => .error .unrecognized, fun _ => .ok (), fun _ => true⟩ ""
      = (.error (.raw .unrecognized), [.fetch ""]) :=
  ⟨by decide, listObjects_no_validation_propagates_raw _ _ _ "" .unrecognized rfl⟩

/-- C10: when the fetch answers with an existing file whose stored content
is the empty string, `getObject` rejects with the generic GitHub API error
instead of returning the empty string, because `if (content)` treats the
empty string as absent. -/
theorem getObject_empty_content_rejects
    (f : Nat → Except RemoteError GetData) (d : Nat → Except RemoteError Unit)
    (w : Nat → Bool) (key sha : String)
    (hk : validStorageKey key = true)
    (h : f 0 = .ok (.entry ⟨some sha, some ""⟩)) :
    getObject ⟨f, d, w⟩ key = (.error .githubApiErrorMessage, [.fetch key]) := by
  simp [getObject, hk, h, strTruthy]

theorem getObject_empty_content_rejects_witness :
    validStorageKey "k" = true ∧
    getObject ⟨fun _ => .ok (.entry ⟨some "s", some ""⟩), fun _ => .ok (), fun _ => true⟩ "k"
      = (.error .githubApiErrorMessage, [.fetch "k"]) :=
  ⟨by decide, getObject_empty_content_rejects _ _ _ "k" "s" (by decide) rfl⟩
